import Mathlib

/-!
Shallow embedding of the query engine of `querytgdb/utils/parser.py`
(connectf_server): the pyparsing grammar, the `TargetFrame` table type with
its `include`/`filter_string` metadata, the leaf fetchers `get_tf_data` and
`get_all_tf`, the modifier evaluator `get_mod`, the set-algebra evaluator
`get_tf`, the reorder pass `reorder_data`, and the entry points `parse_query`
and `get_query_result`.

Modelling conventions:
* pandas `DataFrame` cells are `Option Value` (`none` = `NaN`); a table is a
  row list (target genes), plus a list of columns, each carrying its 3-level
  label `(TF, analysis, attribute)` and its cell function.
* the Django ORM is an explicit read-only environment `Env` of the rows the
  code reads through `values_list`;
* `uuid4()` is modelled by a fresh-`Nat` counter threaded through evaluation
  (only freshness of the suffix tokens matters to the code);
* Python exceptions are `Except EvalErr`.
-/

namespace ConnectF

/-- A cell value: a small categorical string (the EDGE marker `'+'`,
`ADD_EDGES` lists) or a number (`Pvalue`, `Log2FC`).  A missing cell (`NaN`)
is represented as `Option.none` at the use site. -/
inductive Value where
  | str (s : String)
  | num (q : ℚ)
deriving DecidableEq

/-- The analysis level of a column label.  `none` models the `np.nan`
placeholder used in the empty frame `TargetFrame(columns=[(np.nan, 'EDGE')])`;
`some n` is an analysis primary key. -/
abbrev AnalysisId := Option ℕ

/-- Column label: one entry of the 3-level `(TF, analysis, attribute)`
`MultiIndex` of a `TargetFrame`. -/
structure ColKey where
  tf : String
  analysis : AnalysisId
  attr : String
deriving DecidableEq

/-- A column of a table: its label and its cell content per target gene
(`none` = `NaN`). -/
abbrev Col := ColKey × (String → Option Value)

/-- `TargetFrame`: rows (target-gene index), labelled columns, and the two
pieces of pandas `_metadata`: `include` and `filter_string`.  (`include` is a
Lean keyword, hence the trailing underscore.) -/
structure Table where
  rows : List String
  cols : List Col
  include_ : Bool := true
  filter_string : String := ""

instance : Inhabited Table := ⟨{ rows := [], cols := [] }⟩

/-- Cell lookup: `NaN` for a gene outside the row index or a label outside
the column index. -/
def cellAt (t : Table) (g : String) (k : ColKey) : Option Value :=
  match t.cols.find? (fun c => c.1 == k) with
  | some c => if t.rows.contains g then c.2 g else none
  | none => none

/-- `DataFrame.empty`: true when either axis has length 0. -/
def tableEmpty (t : Table) : Bool :=
  t.rows.isEmpty || t.cols.isEmpty

/-- `DataFrame.size`: number of cells (rows × columns). -/
def tableSize (t : Table) : ℕ :=
  t.rows.length * t.cols.length

/-- A column has at least one non-`NaN` cell over the given row index
(`notna().any()`). -/
def colNonNull (rows : List String) (f : String → Option Value) : Bool :=
  rows.any (fun g => (f g).isSome)

/-- Sort key for analysis labels: `none` (the `np.nan` placeholder) first,
then analyses ascending by primary key. -/
def anaKey : AnalysisId → ℕ
  | none => 0
  | some n => n + 1

/-- Order on analysis labels, used for the sorted labels that
`pivot`/`unstack`/`groupby` produce. -/
def anaLe (a b : AnalysisId) : Prop := anaKey a ≤ anaKey b

instance : DecidableRel anaLe := fun a b => Nat.decLe _ _

theorem anaKey_inj : ∀ {a b : AnalysisId}, anaKey a = anaKey b → a = b
  | none, none, _ => rfl
  | some _, some _, h => by
    simp only [anaKey, Nat.add_right_cancel_iff] at h
    exact congrArg some h
  | none, some _, h => by simp [anaKey] at h
  | some _, none, h => by simp [anaKey] at h

instance : IsTotal AnalysisId anaLe := ⟨fun a b => Nat.le_total _ _⟩

instance : IsTrans AnalysisId anaLe := ⟨fun _ _ _ => Nat.le_trans⟩

instance : IsAntisymm AnalysisId anaLe :=
  ⟨fun _ _ h1 h2 => anaKey_inj (Nat.le_antisymm h1 h2)⟩

/-- Lexicographic comparison of character lists by code point (the order
pandas uses to sort Python strings). -/
def lexLeB : List Char → List Char → Bool
  | [], _ => true
  | _ :: _, [] => false
  | a :: as, b :: bs =>
    if a.toNat < b.toNat then true
    else if b.toNat < a.toNat then false
    else lexLeB as bs

/-- Lexicographic order on strings (reducible model of `≤` on `str`). -/
def strLe (a b : String) : Prop := lexLeB a.data b.data = true

instance : DecidableRel strLe := fun a b =>
  inferInstanceAs (Decidable (lexLeB a.data b.data = true))

theorem lexLeB_total : ∀ as bs : List Char,
    lexLeB as bs = true ∨ lexLeB bs as = true
  | [], _ => .inl rfl
  | _ :: _, [] => .inr rfl
  | a :: as, b :: bs => by
    rcases Nat.lt_trichotomy a.toNat b.toNat with h | h | h
    · left
      simp [lexLeB, h]
    · have h2 : ¬ a.toNat < b.toNat := by omega
      have h3 : ¬ b.toNat < a.toNat := by omega
      rcases lexLeB_total as bs with ih | ih
      · left
        simp [lexLeB, h2, h3, ih]
      · right
        simp [lexLeB, h2, h3, ih]
    · right
      simp [lexLeB, h]

theorem lexLeB_trans : ∀ as bs cs : List Char,
    lexLeB as bs = true → lexLeB bs cs = true → lexLeB as cs = true
  | [], _, _, _, _ => rfl
  | _ :: _, [], _, h1, _ => by simp [lexLeB] at h1
  | _ :: _, _ :: _, [], _, h2 => by simp [lexLeB] at h2
  | a :: as, b :: bs, c :: cs, h1, h2 => by
    by_cases hab : a.toNat < b.toNat <;> by_cases hba : b.toNat < a.toNat <;>
      by_cases hbc : b.toNat < c.toNat <;> by_cases hcb : c.toNat < b.toNat <;>
      simp [lexLeB, hab, hba, hbc, hcb] at h1 h2 ⊢ <;>
      first
        | omega
        | (constructor <;> omega)
        | exact Or.inr ⟨by omega, lexLeB_trans as bs cs h1 h2⟩

theorem charToNat_inj {a b : Char} (h : a.toNat = b.toNat) : a = b :=
  Char.eq_of_val_eq (UInt32.ext h)

theorem lexLeB_antisymm : ∀ as bs : List Char,
    lexLeB as bs = true → lexLeB bs as = true → as = bs
  | [], [], _, _ => rfl
  | [], _ :: _, _, h2 => by simp [lexLeB] at h2
  | _ :: _, [], h1, _ => by simp [lexLeB] at h1
  | a :: as, b :: bs, h1, h2 => by
    by_cases hab : a.toNat < b.toNat <;> by_cases hba : b.toNat < a.toNat <;>
      simp [lexLeB, hab, hba] at h1 h2
    · omega
    · have : a = b := charToNat_inj (by omega)
      rw [this, lexLeB_antisymm as bs h1 h2]

instance : IsTotal String strLe := ⟨fun a b => lexLeB_total a.data b.data⟩

instance : IsTrans String strLe := ⟨fun a b c => lexLeB_trans a.data b.data c.data⟩

instance : IsAntisymm String strLe :=
  ⟨fun a b h1 h2 => by
    cases a with
    | mk da =>
      cases b with
      | mk db => exact congrArg String.mk (lexLeB_antisymm da db h1 h2)⟩

/-- Sorted deduplicated list: model of the sorted unique labels produced by
pandas `pivot`/`unstack`/`groupby(sort=True)`. -/
def sortedDedup {α : Type} [DecidableEq α] (r : α → α → Prop) [DecidableRel r]
    (l : List α) : List α :=
  (l.dedup).insertionSort r

theorem mem_sortedDedup {α : Type} [DecidableEq α] (r : α → α → Prop)
    [DecidableRel r] (l : List α) (a : α) : a ∈ sortedDedup r l ↔ a ∈ l := by
  unfold sortedDedup
  rw [(List.perm_insertionSort r _).mem_iff]
  exact List.mem_dedup

/-! ## The grammar (pyparsing model)

`name = Word(alphanums + '-_.:')`, quoted strings with backslash escape,
`modname = (name|quoted) OP (name|quoted)`, `modifier = '[' infixNotation(modname, opers) ']'`,
`expr = infixNotation(gene, [(modifier,1,LEFT), (not,1,RIGHT), (and,2,LEFT), (or,2,LEFT)])`,
whitespace skipped before every token, `parseAll=True` at the entry point. -/

/-- Parsed modifier expression: condition leaves combined by `and`/`or`/`not`. -/
inductive MExpr where
  | cond (key oper value : String)
  | mnot (m : MExpr)
  | mand (l r : MExpr)
  | mor (l r : MExpr)
deriving DecidableEq

/-- Parsed query expression. -/
inductive QExpr where
  | gene (s : String)
  | modded (e : QExpr) (m : MExpr)
  | qnot (e : QExpr)
  | qand (l r : QExpr)
  | qor (l r : QExpr)
deriving DecidableEq

/-- A parser consumes a character list and yields a value plus the rest. -/
abbrev P (α : Type) := List Char → Option (α × List Char)

/-- Characters of the `name` token (`alphanums + '-_.:'`; ASCII model of
`pyparsing_unicode.alphanums`). -/
def isNameChar (c : Char) : Bool :=
  c.isAlphanum || c == '-' || c == '_' || c == '.' || c == ':'

/-- pyparsing identifier-boundary characters of `Keyword` (alphanums, `_`, `$`). -/
def isIdentChar (c : Char) : Bool :=
  c.isAlphanum || c == '_' || c == '$'

/-- Skip pyparsing default whitespace. -/
def skipWs : List Char → List Char
  | c :: cs => if c == ' ' || c == '\t' || c == '\n' || c == '\r' then skipWs cs else c :: cs
  | [] => []

/-- `Word(alphanums + '-_.:')`: a non-empty maximal run of name characters. -/
def pWord : P String := fun s =>
  let s := skipWs s
  let tok := s.takeWhile isNameChar
  if tok.isEmpty then none else some (⟨tok⟩, s.drop tok.length)

/-- Body of a `QuotedString` with `escChar='\\'`: consume up to the closing
quote, fail on a newline or on end of input (unterminated string). -/
def quotedBody (q : Char) : List Char → Option (List Char × List Char)
  | [] => none
  | '\\' :: c :: cs =>
    match quotedBody q cs with
    | some (acc, rest) => some (c :: acc, rest)
    | none => none
  | c :: cs =>
    if c == q then some ([], cs)
    else if c == '\n' then none
    else
      match quotedBody q cs with
      | some (acc, rest) => some (c :: acc, rest)
      | none => none

/-- `QuotedString('"', escChar='\\') | QuotedString("'", escChar='\\')`. -/
def pQuoted : P String := fun s =>
  match skipWs s with
  | '"' :: cs => (quotedBody '"' cs).map (fun p => (⟨p.1⟩, p.2))
  | '\'' :: cs => (quotedBody '\'' cs).map (fun p => (⟨p.1⟩, p.2))
  | _ => none

/-- `name | quoted_name` (in this order, as in `modname`). -/
def pNameOrQuoted : P String := fun s =>
  match pWord s with
  | some r => some r
  | none => pQuoted s

/-- A literal symbol such as `[`, `]`, `(`, `)`. -/
def pSym (c : Char) : P Unit := fun s =>
  match skipWs s with
  | c' :: cs => if c' == c then some ((), cs) else none
  | [] => none

/-- `CaselessKeyword`: case-insensitive match not followed by an identifier
character. -/
def pKw (kw : String) : P Unit := fun s =>
  let s := skipWs s
  let k := kw.data
  let pre := s.take k.length
  if pre.length == k.length
      && (List.zip pre k).all (fun p => p.1.toLower == p.2.toLower)
      && !(match s.drop k.length with
           | c :: _ => isIdentChar c
           | [] => false)
  then some ((), s.drop k.length)
  else none

/-- `oneOf('< = > >= <= !=')`: longest match first. -/
def pOper : P String := fun s =>
  match skipWs s with
  | '>' :: '=' :: r => some (">=", r)
  | '<' :: '=' :: r => some ("<=", r)
  | '!' :: '=' :: r => some ("!=", r)
  | '<' :: r => some ("<", r)
  | '>' :: r => some (">", r)
  | '=' :: r => some ("=", r)
  | _ => none

/-- Greedy repetition; each iteration must fully succeed or the repetition
stops before it (pyparsing `ZeroOrMore`).  Fuelled; callers pass at least
the input length, and every iterated parser consumes input. -/
def pStar {α : Type} (p : P α) : ℕ → P (List α)
  | 0 => fun s => some ([], s)
  | f + 1 => fun s =>
    match p s with
    | some (a, r) =>
      match pStar p f r with
      | some (as, r') => some (a :: as, r')
      | none => some ([a], r)
    | none => some ([], s)

/-- Left-associative binary operator level:
`sub (KEYWORD sub)*`, folded to the left. -/
def pChainL {α : Type} (op : String) (mk : α → α → α) (sub : P α) (f : ℕ) :
    P α := fun s =>
  match sub s with
  | some (a, s1) =>
    match pStar (fun t =>
        match pKw op t with
        | some (_, t1) => sub t1
        | none => none) f s1 with
    | some (rest, s2) => some (rest.foldl mk a, s2)
    | none => none
  | none => none

/-- `modname`: `(name|quoted) OP (name|quoted)`. -/
def pModName : P MExpr := fun s =>
  match pNameOrQuoted s with
  | some (k, s1) =>
    match pOper s1 with
    | some (o, s2) =>
      match pNameOrQuoted s2 with
      | some (v, s3) => some (.cond k o v, s3)
      | none => none
    | none => none
  | none => none

/-- Modifier-expression atom: a condition or a parenthesised modifier
expression (`full` is the whole-modifier-expression parser). -/
def pMAtom (full : P MExpr) : P MExpr := fun s =>
  match pModName s with
  | some r => some r
  | none =>
    match pSym '(' s with
    | some (_, s1) =>
      match full s1 with
      | some (m, s2) =>
        match pSym ')' s2 with
        | some (_, s3) => some (m, s3)
        | none => none
      | none => none
    | none => none

/-- Right-associative prefix `not` level over `sub`: `(not+ sub) | sub`,
backtracking to `sub` at the original position when the nested parse fails
(pyparsing `(op + thisExpr) | lastExpr`). -/
def pNotLevel {α : Type} (mk : α → α) (sub : P α) : ℕ → P α
  | 0 => fun _ => none
  | f + 1 => fun s =>
    match pKw "not" s with
    | some (_, r) =>
      match pNotLevel mk sub f r with
      | some (e, r') => some (mk e, r')
      | none => sub s
    | none => sub s

/-- `infixNotation(modname, [(not,1,RIGHT),(and,2,LEFT),(or,2,LEFT)])`,
fuelled on parenthesis depth. -/
def pMExprFuel : ℕ → P MExpr
  | 0 => fun _ => none
  | f + 1 =>
    pChainL "or" .mor
      (pChainL "and" .mand
        (pNotLevel .mnot (pMAtom (pMExprFuel f)) (f + 1)) (f + 1)) (f + 1)

/-- `modifier`: `'[' mod_expr ']'`. -/
def pModifier (f : ℕ) : P MExpr := fun s =>
  match pSym '[' s with
  | some (_, s1) =>
    match pMExprFuel f s1 with
    | some (m, s2) =>
      match pSym ']' s2 with
      | some (_, s3) => some (m, s3)
      | none => none
    | none => none
  | none => none

/-- `gene`: a bare name. -/
def pGene : P QExpr := fun s =>
  match pWord s with
  | some (n, r) => some (.gene n, r)
  | none => none

/-- Query atom: a gene name or a parenthesised query expression. -/
def pQAtom (full : P QExpr) : P QExpr := fun s =>
  match pGene s with
  | some r => some r
  | none =>
    match pSym '(' s with
    | some (_, s1) =>
      match full s1 with
      | some (e, s2) =>
        match pSym ')' s2 with
        | some (_, s3) => some (e, s3)
        | none => none
      | none => none
    | none => none

/-- Postfix modifier level: `atom modifier*`, folded to the left. -/
def pQMod (full : P QExpr) (f : ℕ) : P QExpr := fun s =>
  match pQAtom full s with
  | some (a, s1) =>
    match pStar (pModifier f) f s1 with
    | some (ms, s2) => some (ms.foldl .modded a, s2)
    | none => none
  | none => none

/-- `expr = infixNotation(gene, [(modifier,1,LEFT),(not,1,RIGHT),(and,2,LEFT),(or,2,LEFT)])`,
fuelled on parenthesis depth. -/
def pQExprFuel : ℕ → P QExpr
  | 0 => fun _ => none
  | f + 1 =>
    pChainL "or" .qor
      (pChainL "and" .qand
        (pNotLevel .qnot (pQMod (pQExprFuel f) (f + 1)) (f + 1)) (f + 1)) (f + 1)

/-- `expr.parseString(query, parseAll=True)`: the whole input (up to trailing
whitespace) must be consumed, otherwise the parse fails. -/
def exprParseString (q : String) : Option QExpr :=
  match pQExprFuel (q.length + 1) q.data with
  | some (t, rest) => if (skipWs rest).isEmpty then some t else none
  | none => none

/-! ## The database environment

A read-only snapshot of the rows the engine reads through the Django ORM
(`values_list` projections of the `Annotation`, `Analysis`, `AnalysisData`,
`Interaction`, `Regulation`, `EdgeType` and `EdgeData` models). -/

/-- The relational data the query engine reads. -/
structure Env where
  /-- `Annotation`: (primary key, gene id). -/
  annoRows : List (ℕ × String) := []
  /-- `Analysis`: (primary key, tf annotation key). -/
  analyses : List (ℕ × ℕ) := []
  /-- `AnalysisData`: (analysis key, key name, value). -/
  analysisData : List (ℕ × String × String) := []
  /-- `Interaction`: (target gene id, analysis key), as fetched by
  `values_list('target__gene_id', 'analysis_id')`. -/
  interactions : List (String × ℕ) := []
  /-- `Regulation`: (analysis key, target gene id, p_value, foldchange). -/
  regulations : List (ℕ × String × Option ℚ × Option ℚ) := []
  /-- `EdgeType`: (primary key, name). -/
  edgeTypes : List (ℕ × String) := []
  /-- `EdgeData`: (tf annotation key, target annotation key, type key). -/
  edgeData : List (ℕ × ℕ × ℕ) := []

/-- `str.lower()` (ASCII model, reducible character map). -/
def lowerStr (s : String) : String := ⟨s.data.map Char.toLower⟩

/-- `str.upper()` (ASCII model, reducible character map). -/
def upperStr (s : String) : String := ⟨s.data.map Char.toUpper⟩

/-- Django `__iexact`: case-insensitive string equality. -/
def ciEq (a b : String) : Bool := lowerStr a == lowerStr b

/-- Gene id of an annotation row. -/
def annoGene (env : Env) (pk : ℕ) : Option String :=
  (env.annoRows.find? (fun r => r.1 == pk)).map (·.2)

/-- Annotation key of a gene (`annotations()['id']`). -/
def annoId (env : Env) (g : String) : Option ℕ :=
  (env.annoRows.find? (fun r => r.2 == g)).map (·.1)

/-- Transcription-factor gene id of an analysis
(`analysis__tf__gene_id`). -/
def tfGeneOfAnalysis (env : Env) (aid : ℕ) : Option String :=
  (env.analyses.find? (fun a => a.1 == aid)).bind (fun a => annoGene env a.2)

/-- `Analysis.objects.filter(tf__gene_id__iexact=query)`: the analysis keys
of a transcription factor. -/
def analysesOfTf (env : Env) (q : String) : List ℕ :=
  (env.analyses.filter (fun a =>
    match annoGene env a.2 with
    | some g => ciEq g q
    | none => false)).map (·.1)

/-! ## Errors -/

/-- Exceptions the engine raises: `pp.ParseException` (wrapped into
`QueryError("Could not parse query")`), `QueryError`, and `ValueError`. -/
inductive EvalErr where
  | parseFailed
  | query (msg : String)
  | value (msg : String)
  | key (msg : String)
deriving DecidableEq

/-! ## Table fetchers (`get_tf_data`, `get_all_tf`) -/

/-- The tf-allow-list check of `get_tf_data`:
`tf_filter_list.str.contains(rf'^{query}$', flags=re.I).any()` — some entry
equals the query case-insensitively — or no list supplied. -/
def tfAllowed (tfF : Option (List String)) (q : String) : Bool :=
  match tfF with
  | none => true
  | some l => l.any (fun s => ciEq s q)

/-- The target-allow-list filter:
`df[df['TARGET'].str.upper().isin(target_filter_list.str.upper())]`. -/
def targetFiltered (tgF : Option (List String)) (pairs : List (String × ℕ)) :
    List (String × ℕ) :=
  match tgF with
  | none => pairs
  | some l => pairs.filter (fun p => l.any (fun t => upperStr t == upperStr p.1))

/-- The interaction rows `get_tf_data` works from: interactions of the TF's
analyses, filtered by the allow lists (empty when the TF is not on the allow
list). -/
def interactionsOf (env : Env) (q : String) (tfF tgF : Option (List String)) :
    List (String × ℕ) :=
  if tfAllowed tfF q then
    targetFiltered tgF
      (env.interactions.filter (fun p => (analysesOfTf env q).contains p.2))
  else []

/-- The empty-but-valid frame of `get_tf_data`:
`TargetFrame(columns=[(np.nan, 'EDGE')])` with the query prepended as column
level 0 and appended to `filter_string`. -/
def emptyTfFrame (q : String) : Table :=
  { rows := [],
    cols := [(⟨q, none, "EDGE"⟩, fun _ => none)],
    include_ := true,
    filter_string := q }

/-- A `(target, analysis)` pair is present in the interaction rows. -/
def hasPair (pairs : List (String × ℕ)) (g : String) (a : ℕ) : Bool :=
  pairs.contains (g, a)

/-- First regulation row of a `(analysis, target)` pair (the
`merge(on=['ANALYSIS','TARGET'], how='left')`). -/
def regLookup (reg : List (ℕ × String × Option ℚ × Option ℚ)) (a : ℕ)
    (g : String) : Option (ℕ × String × Option ℚ × Option ℚ) :=
  reg.find? (fun r => r.1 == a && r.2.1 == g)

/-- `get_tf_data`: data for a single TF.  Rows are the pivoted (sorted,
deduplicated) targets, columns `(query, analysis, attr)` for each analysis
with interactions, with `attr ∈ {EDGE}` when no regulation data exists and
`{EDGE, Pvalue, Log2FC}` otherwise; all-`NaN` columns are dropped
(`dropna(axis=1, how='all')`).  The `EDGE` marker is `'+'` unless the
analysis has regulation rows (then `EDGE` is `NaN` and the numbers carry the
information).  The `edges`/`ADD_EDGES` augmentation (`add_edges`) is not
modelled: every claim is about the `edges=None` path, where the code skips
it. -/
def get_tf_data (env : Env) (q : String) (tfF tgF : Option (List String)) :
    Table :=
  let pairs := interactionsOf env q tfF tgF
  if pairs.isEmpty then emptyTfFrame q
  else
    let anas := analysesOfTf env q
    let reg := env.regulations.filter (fun r => anas.contains r.1)
    let rows := sortedDedup strLe (pairs.map (·.1))
    let present := sortedDedup (α := ℕ) (· ≤ ·) (pairs.map (·.2))
    let regAnas := reg.map (·.1)
    let mkEdge : ℕ → String → Option Value := fun a g =>
      if hasPair pairs g a && !(regAnas.contains a) then some (.str "+")
      else none
    let mkP : ℕ → String → Option Value := fun a g =>
      if hasPair pairs g a then
        ((regLookup reg a g).bind (fun r => r.2.2.1)).map .num
      else none
    let mkFC : ℕ → String → Option Value := fun a g =>
      if hasPair pairs g a then
        ((regLookup reg a g).bind (fun r => r.2.2.2)).map .num
      else none
    let attrCols : ℕ → List Col := fun a =>
      (⟨q, some a, "EDGE"⟩, mkEdge a) ::
        (if reg.isEmpty then []
         else [(⟨q, some a, "Pvalue"⟩, mkP a), (⟨q, some a, "Log2FC"⟩, mkFC a)])
    { rows := rows,
      cols := (present.flatMap attrCols).filter (fun c => colNonNull rows c.2),
      include_ := true,
      filter_string := q }

/-- The `(id, tf_id, value)` frame of the `multitype` restriction:
analyses carrying an `EXPERIMENT_TYPE` annotation, one row per entry
(`values_list('id', 'tf_id', 'analysisdata__value')`). -/
def multitypeRows (env : Env) : List (ℕ × ℕ × String) :=
  (env.analysisData.filter (fun d => ciEq d.2.1 "EXPERIMENT_TYPE")).filterMap
    (fun d => (env.analyses.find? (fun a => a.1 == d.1)).map
      (fun a => (d.1, a.2, d.2.2)))

/-- The analysis keys kept by the `multitype` restriction: analyses carrying
an `EXPERIMENT_TYPE` entry whose TF has more than one distinct
`EXPERIMENT_TYPE` value across its analyses. -/
def multitypeAnalyses (env : Env) : List ℕ :=
  ((multitypeRows env).filter (fun r =>
    ((sortedDedup strLe
      (((multitypeRows env).filter (fun r' => r'.2.1 == r.2.1)).map
        (·.2.2))).length > 1))).map (·.1)

/-- `get_all_tf`: data for all TFs at once (`andalltfs`, `oralltfs`,
`multitype`).  In the `multitype` branch, when no analysis carries
`EXPERIMENT_TYPE` data the frame built from the empty queryset has no
columns, so `a.groupby('tf_id')` crashes with `KeyError('tf_id')` before
anything else runs; otherwise the branch keeps the multi-experiment-type
analyses.  Raises `ValueError("No data in database.")` when the merged
frame is empty.  As for `get_tf_data`, the `edges` augmentation is not
modelled. -/
def get_all_tf (env : Env) (q : String) (tfF tgF : Option (List String)) :
    Except EvalErr Table :=
  if q == "multitype" && (multitypeRows env).isEmpty then .error (.key "tf_id")
  else
  let qs :=
    if q == "multitype" then
      env.interactions.filter (fun p => (multitypeAnalyses env).contains p.2)
    else env.interactions
  let qs :=
    match tfF with
    | some l => qs.filter (fun p =>
        match tfGeneOfAnalysis env p.2 with
        | some g => l.contains g
        | none => false)
    | none => qs
  let df0 := targetFiltered tgF qs
  -- merge with the analyses frame (inner, on ANALYSIS), adding the TF gene
  let df := df0.filterMap (fun p =>
    (tfGeneOfAnalysis env p.2).map (fun g => (p.1, p.2, g)))
  if df.isEmpty then .error (.value "No data in database.")
  else
    -- no_fc: analyses whose merged Log2FC values are all NaN get EDGE '+'
    let plusAna : ℕ → Bool := fun a =>
      (df.filter (fun r => r.2.1 == a)).all (fun r =>
        ((regLookup env.regulations a r.1).bind (fun x => x.2.2.2)).isNone)
    let dfHas : String → ℕ → Bool := fun g a =>
      df.any (fun r => r.1 == g && r.2.1 == a)
    let rows := sortedDedup strLe (df.map (·.1))
    let tfs := sortedDedup strLe (df.map (·.2.2))
    let anasOf : String → List ℕ := fun t =>
      sortedDedup (α := ℕ) (· ≤ ·)
        ((df.filter (fun r => r.2.2 == t)).map (·.2.1))
    let mkEdge : ℕ → String → Option Value := fun a g =>
      if dfHas g a && plusAna a then some (.str "+") else none
    let mkP : ℕ → String → Option Value := fun a g =>
      if dfHas g a then
        ((regLookup env.regulations a g).bind (fun r => r.2.2.1)).map .num
      else none
    let mkFC : ℕ → String → Option Value := fun a g =>
      if dfHas g a then
        ((regLookup env.regulations a g).bind (fun r => r.2.2.2)).map .num
      else none
    let cols := (tfs.flatMap (fun t => (anasOf t).flatMap (fun a =>
        [(⟨t, some a, "EDGE"⟩, mkEdge a),
         (⟨t, some a, "Pvalue"⟩, mkP a),
         (⟨t, some a, "Log2FC"⟩, mkFC a)]))).filter
      (fun c => colNonNull rows c.2)
    -- andalltfs: keep only rows non-missing across every EDGE/Log2FC column
    let rows :=
      if q == "andalltfs" then
        rows.filter (fun g =>
          (cols.filter (fun c => c.1.attr == "EDGE" || c.1.attr == "Log2FC")).all
            (fun c => (c.2 g).isSome))
      else rows
    .ok { rows := rows, cols := cols, include_ := true, filter_string := q }

/-! ## Modifier evaluator (`get_mod` and the `apply_*` helpers) -/

/-- A boolean mask over a table's cells (pandas boolean `DataFrame` of the
same shape, represented as its characteristic function). -/
abbrev Mask := String → ColKey → Bool

/-- Model of Python `float()` on the token strings of this grammar: optional
sign, decimal digits with optional fraction, optional exponent.  The exotic
`float()` spellings (`inf`, `nan`, underscore separators) are outside the
model's scope. -/
def parseFloat (s : String) : Option ℚ :=
  let cs := s.data
  let sgnAndRest : ℚ × List Char :=
    match cs with
    | '+' :: r => (1, r)
    | '-' :: r => (-1, r)
    | r => (1, r)
  let sgn := sgnAndRest.1
  let cs := sgnAndRest.2
  let ip := cs.takeWhile Char.isDigit
  let cs1 := cs.drop ip.length
  let fpAndRest : List Char × List Char :=
    match cs1 with
    | '.' :: r => (r.takeWhile Char.isDigit, r.drop (r.takeWhile Char.isDigit).length)
    | r => ([], r)
  let fp := fpAndRest.1
  let cs2 := fpAndRest.2
  if ip.isEmpty && fp.isEmpty then none
  else
    let dv : List Char → ℕ := fun l => l.foldl (fun n c => 10 * n + (c.toNat - '0'.toNat)) 0
    let mant : ℚ := (dv ip : ℚ) + (dv fp : ℚ) / ((10 : ℚ) ^ fp.length)
    match cs2 with
    | [] => some (sgn * mant)
    | 'e' :: r =>
      let esgnAndRest : Bool × List Char :=
        match r with
        | '+' :: t => (true, t)
        | '-' :: t => (false, t)
        | t => (true, t)
      let ed := esgnAndRest.2.takeWhile Char.isDigit
      if ed.isEmpty || !(esgnAndRest.2.drop ed.length).isEmpty then none
      else some (sgn * (if esgnAndRest.1 then mant * 10 ^ dv ed else mant / 10 ^ dv ed))
    | 'E' :: r =>
      let esgnAndRest : Bool × List Char :=
        match r with
        | '+' :: t => (true, t)
        | '-' :: t => (false, t)
        | t => (true, t)
      let ed := esgnAndRest.2.takeWhile Char.isDigit
      if ed.isEmpty || !(esgnAndRest.2.drop ed.length).isEmpty then none
      else some (sgn * (if esgnAndRest.1 then mant * 10 ^ dv ed else mant / 10 ^ dv ed))
    | _ => none

/-- The six comparison operators of `apply_comp_mod` on one cell.  A `NaN`
cell compares like IEEE `NaN`: every comparison is false except `!=`, which
is true.  (A non-numeric cell in a numeric column is unreachable; it is
treated like `NaN`.) -/
def compValue (oper : String) (cell : Option Value) (v : ℚ) : Bool :=
  match cell with
  | some (.num q) =>
    if oper = "=" then q == v
    else if oper = ">=" then decide (q ≥ v)
    else if oper = "<=" then decide (q ≤ v)
    else if oper = ">" then decide (q > v)
    else if oper = "<" then decide (q < v)
    else if oper = "!=" then q != v
    else false
  | _ => oper = "!="

/-- The column-group `(tf, analysis)` of `c` has a column with attribute
`key`. -/
def groupHasKey (t : Table) (c : ColKey) (key : String) : Bool :=
  t.cols.any (fun c' =>
    c'.1.tf == c.tf && c'.1.analysis == c.analysis && c'.1.attr == key)

/-- A table has at least one column in a real (non-`NaN`-keyed)
column-group.  `groupby(level=[0,1], axis=1)` silently drops groups whose
analysis level is `NaN`, so only these columns form groups and reach the
per-group `apply` functions; the `(query, NaN, EDGE)` placeholder column of
an unknown gene never does. -/
def hasGroupedCol (t : Table) : Bool :=
  t.cols.any (fun c => c.1.analysis.isSome)

/-- The mask of `apply_comp_mod` applied per column-group
(`groupby(level=[0,1], axis=1)`): a `NaN`-keyed column belongs to no group
and is absent from the mask (which excludes its cells); if the group lacks
the `key` column the `KeyError` handler makes the whole group false;
otherwise every column of the group takes the row's comparison result
against the `key` column. -/
def compMask (t : Table) (key oper : String) (v : ℚ) : Mask := fun g c =>
  if c.analysis.isSome && groupHasKey t c key then
    compValue oper (cellAt t g ⟨c.tf, c.analysis, key⟩) v
  else false

/-- `apply_comp_mod` dispatch for a whole table: `float(value)` is evaluated
inside each group, and `groupby(level=[0,1], axis=1)` drops `NaN`-keyed
groups, so a table with no grouped columns (no columns at all, or only the
`(query, NaN, EDGE)` placeholder of an unknown gene) never calls
`apply_comp_mod` and never raises; otherwise a non-coercible value raises
`ValueError`, and an operator outside the six raises
`ValueError('invalid operator: ...')`. -/
def compModDispatch (t : Table) (key oper value : String) :
    Except EvalErr Mask :=
  if !hasGroupedCol t then .ok (fun _ _ => false)
  else
    match parseFloat value with
    | none => .error (.value value)
    | some v =>
      if ["=", ">=", "<=", ">", "<", "!="].contains oper then
        .ok (compMask t key oper v)
      else .error (.value ("invalid operator: " ++ oper))

/-- `COL_TRANSLATE` of `apply_has_column`. -/
def colTranslate (v : String) : String :=
  if v = "PVALUE" then "Pvalue"
  else if v = "FC" then "Log2FC"
  else if v = "ADDITIONAL_EDGE" then "ADD_EDGES"
  else v

/-- `apply_has_column` (applied per column-group, so a `NaN`-keyed column
belongs to no group and stays excluded): a group is fully true iff it has
the (translated) attribute column. -/
def hasColMask (t : Table) (value : String) : Mask := fun _ c =>
  c.analysis.isSome && groupHasKey t c (colTranslate (upperStr value))

/-- `query_metadata`: columns of analyses carrying the case-insensitive
`(key, value)` annotation pair are true, everything else false. -/
def metadataMask (env : Env) (key value : String) : Mask := fun _ c =>
  (env.analysisData.filter (fun d => ciEq d.2.1 key && ciEq d.2.2 value)).any
    (fun d => (some d.1 : AnalysisId) == c.analysis)

/-- `apply_has_add_edges`: rows whose gene has an edge of the requested type
from the group's TF (among the genes where the group is non-missing) are
true; a missing or ambiguous edge type makes the group false. -/
def addEdgesMask (env : Env) (t : Table) (value : String) : Mask := fun g c =>
  match env.edgeTypes.filter (fun e => ciEq e.2 value) with
  | [et] =>
    match c.analysis with
    | some a =>
      match env.analyses.find? (fun x => x.1 == a) with
      | some an =>
        let targetIds := (env.edgeData.filter
          (fun d => d.1 == an.2 && d.2.2 == et.1)).map (·.2.1)
        let rowsNz := t.rows.filter (fun g' =>
          t.cols.any (fun c' =>
            c'.1.tf == c.tf && c'.1.analysis == c.analysis && (c'.2 g').isSome))
        let keep := targetIds.filter (fun tid =>
          rowsNz.any (fun g' => annoId env g' == some tid))
        match annoId env g with
        | some gid => keep.contains gid
        | none => false
      | none => false
    | none => false
  | _ => false

/-- `get_mod`: evaluate a modifier expression on a table to a boolean mask,
dispatching on the condition key (case-insensitive `pvalue`, `fc`,
`additional_edge`, `has_column`, and the metadata fallback) and combining
sub-masks elementwise. -/
def get_mod (env : Env) (t : Table) : MExpr → Except EvalErr Mask
  | .mand l r =>
    match get_mod env t l, get_mod env t r with
    | .ok ml, .ok mr => .ok (fun g c => ml g c && mr g c)
    | .error e, _ => .error e
    | _, .error e => .error e
  | .mor l r =>
    match get_mod env t l, get_mod env t r with
    | .ok ml, .ok mr => .ok (fun g c => ml g c || mr g c)
    | .error e, _ => .error e
    | _, .error e => .error e
  | .mnot m =>
    match get_mod env t m with
    | .ok mm => .ok (fun g c => !mm g c)
    | .error e => .error e
  | .cond key oper value =>
    if ciEq key "pvalue" then compModDispatch t "Pvalue" oper value
    else if ciEq key "fc" then compModDispatch t "Log2FC" oper value
    else if ciEq key "additional_edge" then .ok (addEdgesMask env t value)
    else if ciEq key "has_column" then .ok (hasColMask t (upperStr value))
    else .ok (metadataMask env key value)

/-- `mod_to_str`: flatten the parsed modifier back to a space-joined string
(parentheses were suppressed by the grammar, quoted tokens appear without
their quotes). -/
def mod_to_str : MExpr → String
  | .cond k o v => k ++ " " ++ o ++ " " ++ v
  | .mnot m => "not " ++ mod_to_str m
  | .mand l r => mod_to_str l ++ " and " ++ mod_to_str r
  | .mor l r => mod_to_str l ++ " or " ++ mod_to_str r

/-! ## Set-algebra evaluator (`get_tf` and its merge helpers) -/

/-- `get_suffix`: per-operand column suffixes built from the operands'
filter strings and fresh uniqueness tokens (`uuid4()` modelled by the
counter `n`). -/
def get_suffix (prec succ : Table) (n : ℕ) : String × String :=
  (" \"" ++ prec.filter_string ++ "\" " ++ toString n,
   " \"" ++ succ.filter_string ++ "\" " ++ toString (n + 1))

/-- TF labels of the column labels common to both operands
(`left.columns.intersection(right.columns)`, whose membership test in the
merge renamer matches on the first level). -/
def overlapTfs (prec succ : Table) : List String :=
  ((prec.cols.map (·.1)).filter
    (fun k => (succ.cols.map (·.1)).contains k)).map (·.tf)

/-- The pandas merge renamer applied to one column label: every string level
whose value is a first-level (TF) value of the overlap gets the suffix. -/
def renameKey (tfs : List String) (sfx : String) (k : ColKey) : ColKey :=
  ⟨if tfs.contains k.tf then k.tf ++ sfx else k.tf,
   k.analysis,
   if tfs.contains k.attr then k.attr ++ sfx else k.attr⟩

/-- Rename a column and restrict its cells to the rows of its source frame
(cells of the merged frame outside the source's index are `NaN`). -/
def mergeCol (tfs : List String) (sfx : String) (rows : List String)
    (c : Col) : Col :=
  (renameKey tfs sfx c.1, fun g => if rows.contains g then c.2 g else none)

/-- Columns of a merge: both operands' columns, disambiguated by the
suffixes. -/
def mergeCols (prec succ : Table) (s1 s2 : String) : List Col :=
  let tfs := overlapTfs prec succ
  prec.cols.map (mergeCol tfs s1 prec.rows) ++
    succ.cols.map (mergeCol tfs s2 succ.rows)

/-- Inner merge on the row index: intersection of the row sets in the left
operand's order, columns from both sides. -/
def innerMerge (prec succ : Table) (s1 s2 : String) : Table :=
  { rows := prec.rows.filter (fun g => succ.rows.contains g),
    cols := mergeCols prec succ s1 s2,
    include_ := true,
    filter_string := "" }

/-- Outer merge on the row index: sorted union of the row sets, columns from
both sides. -/
def outerMergeRows (prec succ : Table) : List String :=
  sortedDedup strLe (prec.rows ++ succ.rows)

/-- Outer merge on the row index. -/
def outerMerge (prec succ : Table) (s1 s2 : String) : Table :=
  { rows := outerMergeRows prec succ,
    cols := mergeCols prec succ s1 s2,
    include_ := true,
    filter_string := "" }

/-- The `and` dispatch of `get_tf` over the operands' `include` flags
(`parser.py` lines 465–478). -/
def andTables (prec succ : Table) (s1 s2 : String) : Table :=
  match prec.include_, succ.include_ with
  | true, true => innerMerge prec succ s1 s2
  | false, true => { succ with rows := succ.rows.filter (fun g => !prec.rows.contains g) }
  | true, false => { prec with rows := prec.rows.filter (fun g => !succ.rows.contains g) }
  | false, false => { outerMerge prec succ s1 s2 with include_ := false }

/-- The `or` dispatch of `get_tf` over the operands' `include` flags
(`parser.py` lines 479–493). -/
def orTables (prec succ : Table) (s1 s2 : String) : Table :=
  match prec.include_, succ.include_ with
  | true, true => outerMerge prec succ s1 s2
  | false, true => succ
  | true, false => prec
  | false, false => { innerMerge prec succ s1 s2 with include_ := false }

/-- Drop column-groups `(tf, analysis)` that are entirely `NaN`
(`df.groupby(level=[0,1], axis=1).filter(lambda x: x.notna().any(axis=None))`). -/
def filterGroups (t : Table) : Table :=
  { t with cols := t.cols.filter (fun c =>
      t.cols.any (fun c' =>
        c'.1.tf == c.1.tf && c'.1.analysis == c.1.analysis &&
          colNonNull t.rows c'.2)) }

/-- The `not` case of `get_tf`: flip `include`, prefix the filter string. -/
def notTable (t : Table) : Table :=
  { t with include_ := !t.include_, filter_string := "not " ++ t.filter_string }

/-- `prec[mod]`: cells where the mask is false become `NaN`. -/
def applyMask (t : Table) (m : Mask) : Table :=
  { t with cols := t.cols.map (fun c =>
      (c.1, fun g => if m g c.1 then c.2 g else none)) }

/-- `.dropna(how='all')`: drop rows that are entirely `NaN`. -/
def dropEmptyRows (t : Table) : Table :=
  { t with rows := t.rows.filter (fun g => t.cols.any (fun c => (c.2 g).isSome)) }

/-- `.dropna(axis=1, how='all')`: drop columns that are entirely `NaN`. -/
def dropEmptyCols (t : Table) : Table :=
  { t with cols := t.cols.filter (fun c => colNonNull t.rows c.2) }

/-- `get_tf`: evaluate a parsed query expression to a table.  The source
walks the grouped parse results with an explicit stack; on the expression
tree this is the structural recursion below.  `n` is the fresh-suffix
counter (model of `uuid4()`). -/
def get_tf (env : Env) (tfF tgF : Option (List String)) :
    QExpr → ℕ → Except EvalErr (Table × ℕ)
  | .gene s, n =>
    if ["andalltfs", "oralltfs", "multitype"].contains (lowerStr s) then
      match get_all_tf env (lowerStr s) tfF tgF with
      | .ok t => .ok (t, n)
      | .error e => .error e
    else .ok (get_tf_data env s tfF tgF, n)
  | .qnot e, n =>
    match get_tf env tfF tgF e n with
    | .ok (t, n1) => .ok (notTable t, n1)
    | .error e' => .error e'
  | .modded e m, n =>
    match get_tf env tfF tgF e n with
    | .ok (p, n1) =>
      match get_mod env p m with
      | .ok mask =>
        let p1 := filterGroups (dropEmptyRows (applyMask p mask))
        .ok ({ p1 with
               filter_string := p.filter_string ++ "[" ++ mod_to_str m ++ "]" }, n1)
      | .error e' => .error e'
    | .error e' => .error e'
  | .qand l r, n =>
    match get_tf env tfF tgF l n with
    | .ok (p, n1) =>
      match get_tf env tfF tgF r n1 with
      | .ok (s, n2) =>
        let sfx := get_suffix p s n2
        let d := filterGroups (andTables p s sfx.1 sfx.2)
        .ok ({ d with
               filter_string := p.filter_string ++ " and " ++ s.filter_string },
          n2 + 2)
      | .error e' => .error e'
    | .error e' => .error e'
  | .qor l r, n =>
    match get_tf env tfF tgF l n with
    | .ok (p, n1) =>
      match get_tf env tfF tgF r n1 with
      | .ok (s, n2) =>
        let sfx := get_suffix p s n2
        let d := filterGroups (orTables p s sfx.1 sfx.2)
        .ok ({ d with
               filter_string := p.filter_string ++ " or " ++ s.filter_string },
          n2 + 2)
      | .error e' => .error e'
    | .error e' => .error e'

/-! ## Reorder pass (`reorder_data`) -/

/-- The `EDGE`/`Log2FC` columns (the cells counted by the reorder pass). -/
def edgeLogCols (t : Table) : List Col :=
  t.cols.filter (fun c => c.1.attr == "EDGE" || c.1.attr == "Log2FC")

/-- Non-missing-cell count of one column over the table's rows. -/
def colCount (rows : List String) (c : Col) : ℕ :=
  (rows.filter (fun g => (c.2 g).isSome)).length

/-- Per-analysis totals of non-missing `EDGE`/`Log2FC` cells, keyed by the
canonically sorted analysis labels (`count(axis=1, level=1).sum()`;
`groupby` sorts its keys). -/
def analysisTotals (t : Table) : List (AnalysisId × ℕ) :=
  (sortedDedup anaLe ((edgeLogCols t).map (·.1.analysis))).map
    (fun a => (a, (((edgeLogCols t).filter (fun c => c.1.analysis == a)).map
      (colCount t.rows)).sum))

/-- Per-TF totals of non-missing `EDGE`/`Log2FC` cells, keyed by the
canonically sorted TF labels. -/
def tfTotals (t : Table) : List (String × ℕ) :=
  (sortedDedup strLe ((edgeLogCols t).map (·.1.tf))).map
    (fun f => (f, (((edgeLogCols t).filter (fun c => c.1.tf == f)).map
      (colCount t.rows)).sum))

/-- `sort_values(ascending=False)` on a small series: stable ascending sort
by value, reversed (numpy's quicksort is insertion sort below 16 elements,
reversed for the descending order). -/
def sortValuesDesc {κ : Type} (l : List (κ × ℕ)) : List κ :=
  ((l.insertionSort (fun a b => a.2 ≤ b.2)).reverse).map (·.1)

/-- `reorder_data`: reindex columns by the descending-count analysis order
(level 1) and then the descending-count TF order (level 0).  The two level
reindexes amount to a stable regrouping: TF groups in `tf_order`, analyses
in `analysis_order` within a TF, attribute columns in their incoming
relative order within a `(tf, analysis)` group; labels absent from an order
list are dropped. -/
def reorder_data (t : Table) : Table :=
  let ao := sortValuesDesc (analysisTotals t)
  let tfo := sortValuesDesc (tfTotals t)
  { t with cols := tfo.flatMap (fun f => ao.flatMap (fun a =>
      t.cols.filter (fun c => c.1.tf == f && c.1.analysis == a))) }

/-! ## Entry points (`parse_query`, `get_query_result`) -/

/-- `parse_query`: parse (`parseAll=True`), evaluate, fail with
`QueryError('empty query')` when the result is empty or not `include`, and
reorder otherwise.  A parse failure becomes
`QueryError("Could not parse query")`. -/
def parse_query (env : Env) (q : String) (tfF tgF : Option (List String)) :
    Except EvalErr Table :=
  match exprParseString q with
  | none => .error .parseFailed
  | some tree =>
    match get_tf env tfF tgF tree 0 with
    | .error e => .error e
    | .ok (result, _) =>
      if tableEmpty result || !result.include_ then .error (.query "empty query")
      else .ok (reorder_data result)

/-- `get_query_result` (fresh-query path; the pickle-cache path reads the
filesystem and is outside the model): evaluate, restrict to the user gene
list and drop all-`NaN` columns, fail on an empty restricted result, apply
the `size_limit` guard to the restricted table, and return it.  The final
presentation steps (TF-count column, annotation merge, row sort) neither
filter nor fail and are not modelled. -/
def get_query_result (env : Env) (q : String)
    (user_lists : Option (List String)) (tfF : Option (List String))
    (size_limit : Option ℕ) : Except EvalErr Table :=
  match parse_query env q tfF none with
  | .error e => .error e
  | .ok result =>
    let result :=
      match user_lists with
      | some ul => dropEmptyCols
          { result with rows := result.rows.filter (fun g => ul.contains g) }
      | none => result
    if tableEmpty result then
      .error (.query "Empty result (user list too restrictive).")
    else
      match size_limit with
      | some lim =>
        if tableSize result > lim then .error (.query "Result too large.")
        else .ok result
      | none => .ok result

/-! ## Shared lemmas and concrete fixtures -/

theorem mem_outerMergeRows (prec succ : Table) (g : String) :
    g ∈ outerMergeRows prec succ ↔ g ∈ prec.rows ∨ g ∈ succ.rows := by
  unfold outerMergeRows
  rw [mem_sortedDedup]
  exact List.mem_append

theorem strAppendRightCancel {a b c : String} (h : a ++ c = b ++ c) : a = b := by
  have hd : a.data ++ c.data = b.data ++ c.data := congrArg String.data h
  cases a with
  | mk da =>
    cases b with
    | mk db => exact congrArg String.mk (List.append_cancel_right hd)

/-- The empty environment (an empty database). -/
def env0 : Env := {}

/-- A one-TF, one-analysis, two-target environment: TF `g` (annotation 10)
with analysis 1 and interactions to `T1` and `T2`, no regulation data. -/
def genv : Env :=
  { annoRows := [(10, "g"), (11, "T1"), (12, "T2")],
    analyses := [(1, 10)],
    interactions := [("T1", 1), ("T2", 1)] }

/-- The evaluated table of the query `g` over `genv`. -/
def gtab : Table := (parse_query genv "g" none none).toOption.getD default

/-- The evaluated table of the query `g and g` over `genv`. -/
def ggtab : Table := (parse_query genv "g and g" none none).toOption.getD default

/-! ## C1 -/

/-- C1: the `and`/`or` combinations of two evaluated operand tables follow
the 2×2 truth table over their `include` flags: `and` on T/T is the inner
join on the row index (columns from both sides); on F/T (resp. T/F) it keeps
the rows of the positive operand that are not in the negative operand's row
set; on F/F it is the outer join with `include=false`.  `or` on T/T is the
outer join; on F/T (resp. T/F) it is the positive operand's table alone; on
F/F it is the inner join with `include=false`. -/
theorem c1_and_or_truth_table (prec succ : Table) (s1 s2 : String) :
    ((andTables prec succ s1 s2).include_ = (prec.include_ || succ.include_))
  ∧ ((orTables prec succ s1 s2).include_ = (prec.include_ || succ.include_))
  ∧ (∀ g, g ∈ (andTables prec succ s1 s2).rows ↔
      (match prec.include_, succ.include_ with
       | true, true => g ∈ prec.rows ∧ g ∈ succ.rows
       | false, true => g ∈ succ.rows ∧ g ∉ prec.rows
       | true, false => g ∈ prec.rows ∧ g ∉ succ.rows
       | false, false => g ∈ prec.rows ∨ g ∈ succ.rows))
  ∧ (∀ g, g ∈ (orTables prec succ s1 s2).rows ↔
      (match prec.include_, succ.include_ with
       | true, true => g ∈ prec.rows ∨ g ∈ succ.rows
       | false, true => g ∈ succ.rows
       | true, false => g ∈ prec.rows
       | false, false => g ∈ prec.rows ∧ g ∈ succ.rows))
  ∧ (prec.include_ = false → succ.include_ = true →
      orTables prec succ s1 s2 = succ ∧
      andTables prec succ s1 s2 =
        { succ with rows := succ.rows.filter (fun g => !prec.rows.contains g) })
  ∧ (prec.include_ = true → succ.include_ = false →
      orTables prec succ s1 s2 = prec ∧
      andTables prec succ s1 s2 =
        { prec with rows := prec.rows.filter (fun g => !succ.rows.contains g) })
  ∧ (prec.include_ = true → succ.include_ = true →
      (andTables prec succ s1 s2).rows =
        prec.rows.filter (fun g => succ.rows.contains g) ∧
      (andTables prec succ s1 s2).cols = mergeCols prec succ s1 s2 ∧
      (orTables prec succ s1 s2).rows = outerMergeRows prec succ)
  ∧ (prec.include_ = false → succ.include_ = false →
      (andTables prec succ s1 s2).rows = outerMergeRows prec succ ∧
      (andTables prec succ s1 s2).cols = mergeCols prec succ s1 s2 ∧
      (orTables prec succ s1 s2).rows =
        prec.rows.filter (fun g => succ.rows.contains g) ∧
      (orTables prec succ s1 s2).cols = mergeCols prec succ s1 s2) := by
  cases hp : prec.include_ <;> cases hs : succ.include_ <;>
    simp [andTables, orTables, innerMerge, outerMerge, hp, hs,
      mem_outerMergeRows, List.mem_filter, List.elem_iff]

/-- C1 witness: the mixed-polarity branches instantiated on concrete tables
with discharged `include` hypotheses. -/
theorem c1_witness :
    (orTables { rows := ["B", "C"], cols := [], include_ := false }
        { rows := ["A", "B"], cols := [] } "x" "y" =
      { rows := ["A", "B"], cols := [] } ∧
     andTables { rows := ["B", "C"], cols := [], include_ := false }
        { rows := ["A", "B"], cols := [] } "x" "y" =
      { ({ rows := ["A", "B"], cols := [] } : Table) with
        rows := (["A", "B"] : List String).filter
          (fun g => !(["B", "C"] : List String).contains g) })
  ∧ (orTables { rows := ["A", "B"], cols := [] }
        { rows := ["B", "C"], cols := [], include_ := false } "x" "y" =
      { rows := ["A", "B"], cols := [] } ∧
     andTables { rows := ["A", "B"], cols := [] }
        { rows := ["B", "C"], cols := [], include_ := false } "x" "y" =
      { ({ rows := ["A", "B"], cols := [] } : Table) with
        rows := (["A", "B"] : List String).filter
          (fun g => !(["B", "C"] : List String).contains g) }) :=
  ⟨(c1_and_or_truth_table _ _ "x" "y").2.2.2.2.1 rfl rfl,
   (c1_and_or_truth_table _ _ "x" "y").2.2.2.2.2.1 rfl rfl⟩

/-! ## C9 -/

/-- C9: `not` flips only the `include` flag and prefixes the filter string
with `"not "`; the operand table's row index, column labels and cell
functions are untouched, and the evaluator's `not` case is exactly this
transformation (no complement table is materialised). -/
theorem c9_not_frame_effect :
    (∀ t : Table,
      (notTable t).include_ = !t.include_ ∧
      (notTable t).filter_string = "not " ++ t.filter_string ∧
      (notTable t).rows = t.rows ∧
      (notTable t).cols = t.cols)
  ∧ (∀ (env : Env) (tfF tgF : Option (List String)) (e : QExpr) (n : ℕ),
      get_tf env tfF tgF (QExpr.qnot e) n =
        (get_tf env tfF tgF e n).map (fun p => (notTable p.1, p.2))) := by
  refine ⟨fun t => ⟨rfl, rfl, rfl, rfl⟩, fun env tfF tgF e n => ?_⟩
  cases h : get_tf env tfF tgF e n with
  | ok p =>
    cases p
    simp [get_tf, h, Except.map]
  | error e' =>
    simp [get_tf, h, Except.map]

/-! ## C4 -/

/-- C4: on a well-formed query whose evaluation succeeds, `parse_query`
raises `QueryError('empty query')` exactly when the evaluated table is empty
or its `include` flag is false, and returns the reordered table otherwise. -/
theorem c4_empty_result_iff (env : Env) (q : String)
    (tfF tgF : Option (List String)) (tree : QExpr) (r : Table) (n : ℕ)
    (hp : exprParseString q = some tree)
    (he : get_tf env tfF tgF tree 0 = .ok (r, n)) :
    (parse_query env q tfF tgF = .error (.query "empty query") ↔
      (tableEmpty r || !r.include_) = true)
  ∧ ((tableEmpty r || !r.include_) = false →
      parse_query env q tfF tgF = .ok (reorder_data r)) := by
  unfold parse_query
  simp only [hp, he]
  cases hc : (tableEmpty r || !r.include_) <;> simp [hc]

/-- C4 witness: over `genv`, the query `g` evaluates to a non-empty included
table, so `parse_query` returns its reordering. -/
theorem c4_witness :
    (parse_query genv "g" none none = .error (.query "empty query") ↔
      (tableEmpty (get_tf_data genv "g" none none) ||
        !(get_tf_data genv "g" none none).include_) = true)
  ∧ ((tableEmpty (get_tf_data genv "g" none none) ||
        !(get_tf_data genv "g" none none).include_) = false →
      parse_query genv "g" none none =
        .ok (reorder_data (get_tf_data genv "g" none none))) :=
  c4_empty_result_iff genv "g" none none (QExpr.gene "g")
    (get_tf_data genv "g" none none) 0 rfl (by rfl)

/-! ## C6 -/

/-- C6: parsing succeeds only when the entire input (up to trailing
whitespace) is consumed, and the malformed shapes — unbalanced brackets, an
empty modifier body, an operator with a missing operand, an unterminated
quoted string, trailing garbage after a well-formed expression — are all
rejected. -/
theorem c6_parse_rejects_malformed :
    (∀ (s : String) (t : QExpr), exprParseString s = some t →
      ∃ rest, pQExprFuel (s.length + 1) s.data = some (t, rest) ∧
        skipWs rest = [])
  ∧ exprParseString "(a" = none
  ∧ exprParseString "a[pvalue<1" = none
  ∧ exprParseString "a[]" = none
  ∧ exprParseString "a and" = none
  ∧ exprParseString "a[\"pvalue < 1]" = none
  ∧ exprParseString "a b" = none := by
  refine ⟨fun s t h => ?_, rfl, rfl, rfl, rfl, rfl, rfl⟩
  unfold exprParseString at h
  cases hp : pQExprFuel (s.length + 1) s.data with
  | none => rw [hp] at h; exact absurd h (by simp)
  | some p =>
    obtain ⟨t', rest⟩ := p
    rw [hp] at h
    by_cases hw : (skipWs rest).isEmpty
    · simp only [hw, if_true, Option.some.injEq] at h
      subst h
      exact ⟨rest, rfl, List.isEmpty_iff.mp hw⟩
    · simp only [hw, if_false] at h
      exact absurd h (by simp)

/-- C6 witness: the full-consumption property instantiated on the query
`a`. -/
theorem c6_witness :
    ∃ rest, pQExprFuel ((("a" : String)).length + 1) ("a" : String).data =
      some (QExpr.gene "a", rest) ∧ skipWs rest = [] :=
  c6_parse_rejects_malformed.1 "a" (QExpr.gene "a") rfl

/-! ## C3 -/

/-- A one-group table with a `Pvalue` column, used to exercise
`apply_comp_mod`. -/
def tPv : Table :=
  { rows := ["A"],
    cols := [(⟨"g", some 1, "Pvalue"⟩, fun _ => some (.num (1 / 100)))] }

/-- C3 counterexample: on a table that has a column-group, a `PVALUE`
condition whose comparison value does not coerce to a number raises
`ValueError` (aborting the query) instead of yielding an all-false mask —
`float(value)` on line 123 of `parser.py` sits outside the
`except KeyError` handler. -/
theorem c3_counterexample :
    get_mod env0 tPv (MExpr.cond "pvalue" "<" "abc") = .error (.value "abc") :=
  rfl

/-- C3 (amended): for `PVALUE`/`FC` conditions, a comparison value that
fails to coerce to a number raises `ValueError` and aborts the query on any
table with at least one grouped (non-`NaN`-analysis) column;
`groupby(level=[0,1])` drops the `NaN`-keyed placeholder column of an
unknown gene, so a table with no grouped column never invokes
`apply_comp_mod` and nothing is raised there.  The all-false-mask recovery
applies to the `KeyError` of a column-group that lacks the
`Pvalue`/`Log2FC` column, not to coercion failures. -/
theorem c3_amended :
    (∀ (env : Env) (t : Table) (oper v : String), hasGroupedCol t = true →
      parseFloat v = none →
      get_mod env t (.cond "PVALUE" oper v) = .error (.value v) ∧
      get_mod env t (.cond "FC" oper v) = .error (.value v))
  ∧ (∀ (env : Env) (t : Table) (oper v : String), hasGroupedCol t = false →
      (∃ mk : Mask, get_mod env t (.cond "PVALUE" oper v) = .ok mk))
  ∧ (∀ (env : Env) (t : Table) (oper v : String) (x : ℚ) (m : Mask)
      (g : String) (c : ColKey),
      parseFloat v = some x →
      get_mod env t (.cond "pvalue" oper v) = .ok m →
      groupHasKey t c "Pvalue" = false → m g c = false) := by
  refine ⟨?_, ?_, ?_⟩
  · intro env t oper v hg hv
    constructor <;>
      simp [get_mod, ciEq, lowerStr, compModDispatch, hg, hv]
  · intro env t oper v hg
    refine ⟨fun _ _ => false, ?_⟩
    simp [get_mod, ciEq, lowerStr, compModDispatch, hg]
  · intro env t oper v x m g c hv hm hk
    simp only [get_mod, ciEq, lowerStr] at hm
    norm_num at hm
    unfold compModDispatch at hm
    by_cases hc : hasGroupedCol t = true
    · rw [hc] at hm
      simp only [Bool.not_true] at hm
      rw [if_neg (by simp)] at hm
      rw [hv] at hm
      have hm2 : (if (["=", ">=", "<=", ">", "<", "!="] : List String).contains
            oper = true
          then Except.ok (compMask t "Pvalue" oper x)
          else Except.error (EvalErr.value ("invalid operator: " ++ oper))) =
          Except.ok m := hm
      by_cases ho : (["=", ">=", "<=", ">", "<", "!="] : List String).contains
          oper = true
      · rw [if_pos ho] at hm2
        cases hm2
        simp [compMask, hk]
      · rw [if_neg ho] at hm2
        exact absurd hm2 (by simp)
    · have hc' := Bool.not_eq_true _ |>.mp hc
      rw [hc'] at hm
      simp only [Bool.not_false] at hm
      rw [if_pos trivial] at hm
      cases hm
      rfl

/-- C3 witness: the amended claim instantiated — `abc` aborts on the grouped
table `tPv` but not on the `NaN`-keyed placeholder frame of an unknown gene,
and a well-coerced comparison yields a mask that is false on a group without
a `Pvalue` column. -/
theorem c3_witness :
    (get_mod env0 tPv (MExpr.cond "PVALUE" "<" "abc") = .error (.value "abc") ∧
     get_mod env0 tPv (MExpr.cond "FC" "<" "abc") = .error (.value "abc"))
  ∧ (∃ mk : Mask,
      get_mod env0 (emptyTfFrame "nosuchgene")
        (MExpr.cond "PVALUE" "<" "abc") = .ok mk)
  ∧ ((get_mod env0 tPv (MExpr.cond "pvalue" "<" "0.05")).toOption.getD
      (fun _ _ => false) "A" ⟨"h", some 2, "EDGE"⟩ = false) :=
  ⟨c3_amended.1 env0 tPv "<" "abc" rfl rfl,
   c3_amended.2.1 env0 (emptyTfFrame "nosuchgene") "<" "abc" rfl,
   c3_amended.2.2 env0 tPv "<" "0.05" ((parseFloat "0.05").getD 0)
     ((get_mod env0 tPv (MExpr.cond "pvalue" "<" "0.05")).toOption.getD
       (fun _ _ => false)) "A" ⟨"h", some 2, "EDGE"⟩ (by rfl) (by rfl) (by rfl)⟩

/-! ## C5 -/

/-- C5 counterexample: the keyword leaf fetch does raise — on an empty
database, `oralltfs` raises `ValueError("No data in database.")` both from
`get_all_tf` directly and through the evaluator's leaf case, rather than
returning an empty-but-valid table. -/
theorem c5_counterexample :
    get_all_tf env0 "oralltfs" none none =
      .error (.value "No data in database.") ∧
    get_tf env0 none none (QExpr.gene "oralltfs") 0 =
      .error (.value "No data in database.") :=
  ⟨rfl, by rfl⟩

/-- C5 (amended): a gene-name leaf fetch with no matching interaction rows
returns the empty-but-valid frame (no rows, the `(query, NaN, EDGE)` column
shape, `include=true`) and never raises; the keyword fetches raise instead
of returning an empty table — `andalltfs`/`oralltfs` raise
`ValueError("No data in database.")` whenever the interaction table is
empty, and `multitype` crashes with `KeyError('tf_id')` when no analysis
carries `EXPERIMENT_TYPE` data (the frame built from the empty queryset has
no columns, so `groupby('tf_id')` fails before the emptiness check). -/
theorem c5_amended :
    (∀ (env : Env) (q : String) (tfF tgF : Option (List String)),
      interactionsOf env q tfF tgF = [] →
      get_tf_data env q tfF tgF = emptyTfFrame q)
  ∧ (∀ (env : Env) (q : String) (tfF tgF : Option (List String)),
      q ≠ "multitype" → env.interactions = [] →
      get_all_tf env q tfF tgF = .error (.value "No data in database."))
  ∧ (∀ (env : Env) (tfF tgF : Option (List String)),
      multitypeRows env = [] →
      get_all_tf env "multitype" tfF tgF = .error (.key "tf_id")) := by
  refine ⟨?_, ?_, ?_⟩
  · intro env q tfF tgF h
    simp [get_tf_data, h]
  · intro env q tfF tgF hq h
    have hq' : (q == "multitype") = false := by simp [hq]
    unfold get_all_tf
    rw [hq']
    rcases tfF with _ | l <;> rcases tgF with _ | l' <;>
      simp [h, targetFiltered]
  · intro env tfF tgF h
    unfold get_all_tf
    simp [h]

/-- C5 witness: the amended claim instantiated — an unknown gene over `genv`
yields the empty frame; `get_all_tf` on the empty database raises
`ValueError` for `oralltfs` and `KeyError` for `multitype`. -/
theorem c5_witness :
    get_tf_data genv "nosuchtf" none none = emptyTfFrame "nosuchtf" ∧
    get_all_tf env0 "oralltfs" none none =
      .error (.value "No data in database.") ∧
    get_all_tf env0 "multitype" none none = .error (.key "tf_id") :=
  ⟨c5_amended.1 genv "nosuchtf" none none rfl,
   c5_amended.2.1 env0 "oralltfs" none none (by decide) rfl,
   c5_amended.2.2 env0 none none rfl⟩

/-! ## C10 -/

/-- C10: when the user gene list leaves no rows of the successfully
evaluated result, `get_query_result` fails with the distinct
`QueryError("Empty result (user list too restrictive).")` — after
evaluation succeeded and regardless of the size limit (the check precedes
the size guard) — instead of returning an empty table. -/
theorem c10_user_list_too_restrictive (env : Env) (q : String)
    (ul : List String) (tfF : Option (List String)) (lim : Option ℕ)
    (r : Table)
    (hr : parse_query env q tfF none = .ok r)
    (hempty : r.rows.filter (fun g => ul.contains g) = []) :
    get_query_result env q (some ul) tfF lim =
      .error (.query "Empty result (user list too restrictive).") := by
  unfold get_query_result
  rw [hr]
  simp only [hempty]
  rfl

/-- C10 witness: over `genv`, the query `g` evaluates fine but the user list
`["ZZZ"]` leaves no rows, so the user-list error fires even with
`size_limit = 0`. -/
theorem c10_witness :
    get_query_result genv "g" (some ["ZZZ"]) none (some 0) =
      .error (.query "Empty result (user list too restrictive).") :=
  c10_user_list_too_restrictive genv "g" ["ZZZ"] none (some 0) gtab
    (by rfl) (by rfl)

/-! ## C2 -/

/-- C2 exhibit: the `size_limit` guard of `get_query_result` compares the
threshold against the table **after** the user-gene-list filtering, not the
unfiltered table: over `genv`, the query `g` evaluates to a 2-cell table
(2 rows × 1 column), so with `size_limit = 1` the unfiltered cell count
exceeds the threshold, yet with the user list `["T1"]` (1 remaining cell)
the call succeeds instead of raising `ResultTooLargeError` — while without
a user list the same call fails with `Result too large.`.  This contradicts
the code's own `"Unfiltered Dataframe size"` log line at the check. -/
theorem c2_size_limit_checks_filtered_table :
    parse_query genv "g" none none = .ok gtab ∧
    tableSize gtab = 2 ∧
    (get_query_result genv "g" (some ["T1"]) none (some 1)).isOk = true ∧
    get_query_result genv "g" none none (some 1) =
      .error (.query "Result too large.") :=
  ⟨by rfl, by rfl, by rfl, by rfl⟩

/-! ## C7 -/

/-- Sorting a deduplicated list is invariant under permutation of the
input (for a decidable total antisymmetric preorder). -/
theorem sortedDedup_eq_of_perm {α : Type} [DecidableEq α] (r : α → α → Prop)
    [DecidableRel r] [IsTotal α r] [IsTrans α r] [IsAntisymm α r]
    {l1 l2 : List α} (h : l1.Perm l2) : sortedDedup r l1 = sortedDedup r l2 :=
  List.eq_of_perm_of_sorted
    ((List.perm_insertionSort r _).trans (h.dedup.trans
      (List.perm_insertionSort r _).symm))
    (List.sorted_insertionSort r _) (List.sorted_insertionSort r _)

/-- The per-analysis totals depend only on the rows and the multiset of
columns, not on the column order. -/
theorem analysisTotals_congr (t1 t2 : Table) (hr : t1.rows = t2.rows)
    (hperm : t1.cols.Perm t2.cols) : analysisTotals t1 = analysisTotals t2 := by
  have hel : (edgeLogCols t1).Perm (edgeLogCols t2) := hperm.filter _
  unfold analysisTotals
  rw [sortedDedup_eq_of_perm anaLe (hel.map _)]
  refine List.map_congr_left (fun a _ => ?_)
  refine congrArg (fun x => (a, x)) ?_
  rw [hr]
  exact ((hel.filter _).map (colCount t2.rows)).sum_eq

/-- The per-TF totals depend only on the rows and the multiset of columns. -/
theorem tfTotals_congr (t1 t2 : Table) (hr : t1.rows = t2.rows)
    (hperm : t1.cols.Perm t2.cols) : tfTotals t1 = tfTotals t2 := by
  have hel : (edgeLogCols t1).Perm (edgeLogCols t2) := hperm.filter _
  unfold tfTotals
  rw [sortedDedup_eq_of_perm strLe (hel.map _)]
  refine List.map_congr_left (fun f _ => ?_)
  refine congrArg (fun x => (f, x)) ?_
  rw [hr]
  exact ((hel.filter _).map (colCount t2.rows)).sum_eq

/-- The `(T, 1)` `EDGE` column of the C7 fixtures. -/
def c7edge : Col :=
  (⟨"T", some 1, "EDGE"⟩, fun g => if g == "A" then some (.str "+") else none)

/-- The `(T, 1)` `Pvalue` column of the C7 fixtures. -/
def c7pval : Col :=
  (⟨"T", some 1, "Pvalue"⟩, fun g => if g == "A" then some (.num (1 / 10)) else none)

/-- One-group table with attribute columns supplied as `EDGE, Pvalue`. -/
def t7a : Table := { rows := ["A"], cols := [c7edge, c7pval] }

/-- The same cell content with the attribute columns supplied swapped. -/
def t7b : Table := { rows := ["A"], cols := [c7pval, c7edge] }

/-- C7 counterexample: the reorder pass is not deterministic across
different supplied column orders — `t7a` and `t7b` have the same rows and
the same columns (one list is a permutation of the other) but the attribute
columns of their single `(TF, analysis)` group are supplied in swapped
order, and they reorder to different final column orders, because the level
reindexes keep the incoming relative order inside a column-group. -/
theorem c7_counterexample :
    t7a.rows = t7b.rows ∧ t7a.cols.Perm t7b.cols ∧
    (reorder_data t7a).cols.map Prod.fst ≠ (reorder_data t7b).cols.map Prod.fst :=
  ⟨rfl, List.Perm.swap _ _ [], by decide⟩

/-- C7 (amended): the reorder pass is deterministic only down to the
column-group level.  The analysis and TF orders are functions of the cell
content alone (invariant under any permutation of the columns), and when two
tables additionally supply the columns of every `(TF, analysis)` group in
the same relative order, reordering produces the same final column order;
within a group the incoming attribute order is preserved, so tables whose
within-group orders differ reorder differently (see the counterexample). -/
theorem c7_amended (t1 t2 : Table) (hr : t1.rows = t2.rows)
    (hperm : t1.cols.Perm t2.cols)
    (hgroup : ∀ (f : String) (a : AnalysisId),
      t1.cols.filter (fun c => c.1.tf == f && c.1.analysis == a) =
        t2.cols.filter (fun c => c.1.tf == f && c.1.analysis == a)) :
    analysisTotals t1 = analysisTotals t2 ∧
    tfTotals t1 = tfTotals t2 ∧
    (reorder_data t1).cols = (reorder_data t2).cols := by
  refine ⟨analysisTotals_congr t1 t2 hr hperm, tfTotals_congr t1 t2 hr hperm, ?_⟩
  show (sortValuesDesc (tfTotals t1)).flatMap _ =
    (sortValuesDesc (tfTotals t2)).flatMap _
  rw [tfTotals_congr t1 t2 hr hperm, analysisTotals_congr t1 t2 hr hperm]
  exact congrArg _ (funext fun f => congrArg _ (funext fun a => hgroup f a))

/-- Two-group table, groups supplied as `(T,1)` then `(U,2)`. -/
def t7c : Table :=
  { rows := ["A"], cols := [c7edge, (⟨"U", some 2, "EDGE"⟩, fun _ => some (.str "+"))] }

/-- The same two groups supplied interleaved the other way. -/
def t7d : Table :=
  { rows := ["A"], cols := [(⟨"U", some 2, "EDGE"⟩, fun _ => some (.str "+")), c7edge] }

/-- C7 witness: the group-level determinism instantiated on two two-group
tables whose group contents agree while the group order is swapped. -/
theorem c7_witness :
    analysisTotals t7c = analysisTotals t7d ∧
    tfTotals t7c = tfTotals t7d ∧
    (reorder_data t7c).cols = (reorder_data t7d).cols :=
  c7_amended t7c t7d rfl (List.Perm.swap _ _ [])
    (by
      intro f a
      simp only [t7c, t7d, c7edge, List.filter]
      by_cases hT : (("T" : String) == f && ((some 1 : AnalysisId) == a)) = true
      · have hU : (("U" : String) == f && ((some 2 : AnalysisId) == a)) = false := by
          simp only [Bool.and_eq_true, beq_iff_eq] at hT
          simp [← hT.1]
        rw [hT, hU]
      · have hT' := Bool.not_eq_true _ |>.mp hT
        by_cases hU : (("U" : String) == f && ((some 2 : AnalysisId) == a)) = true
        · rw [hT', hU]
        · have hU' := Bool.not_eq_true _ |>.mp hU
          rw [hT', hU'])

/-! ## C8 -/

/-- C8 counterexample: evaluating `g and g` over `genv` succeeds and yields
a table with TWO columns for the single `(analysis 1, EDGE)` column-group —
the overlapping columns of the two identical operands are kept (renamed with
the filter-string/uniqueness suffixes on the TF level, so the labels are
distinct), not deduplicated; both copies carry the same cells. -/
theorem c8_counterexample :
    (parse_query genv "g and g" none none).isOk = true ∧
    ggtab.cols.map (fun c => (c.1.analysis, c.1.attr)) =
      [(some 1, "EDGE"), (some 1, "EDGE")] ∧
    ggtab.cols.map (fun c => (c.2 "T1", c.2 "T2")) =
      [(some (.str "+"), some (.str "+")), (some (.str "+"), some (.str "+"))] ∧
    (ggtab.cols.map (fun c => c.1)).Nodup :=
  ⟨by rfl, by rfl, by rfl, by decide⟩

/-- C8 (amended): the T/T `and` merge of two operands with identical column
labels does not deduplicate the overlapping columns — it keeps both
operands' columns (the column count doubles), renaming the TF level of each
side with its suffix; when the suffixed TF labels cannot collide across
sides, the resulting label list is duplicate-free even though the content is
duplicated. -/
theorem c8_amended (prec succ : Table) (s1 s2 : String)
    (hsame : prec.cols.map Prod.fst = succ.cols.map Prod.fst)
    (hnd : (prec.cols.map Prod.fst).Nodup)
    (hattr : ∀ k ∈ prec.cols.map Prod.fst,
      (overlapTfs prec succ).contains k.attr = false)
    (htf : ∀ k ∈ prec.cols.map Prod.fst,
      (overlapTfs prec succ).contains k.tf = true)
    (hcross : ∀ k ∈ prec.cols.map Prod.fst, ∀ k' ∈ prec.cols.map Prod.fst,
      k.tf ++ s1 ≠ k'.tf ++ s2) :
    (innerMerge prec succ s1 s2).cols.length =
      prec.cols.length + succ.cols.length ∧
    (innerMerge prec succ s1 s2).cols.map Prod.fst =
      prec.cols.map (fun c => renameKey (overlapTfs prec succ) s1 c.1) ++
        succ.cols.map (fun c => renameKey (overlapTfs prec succ) s2 c.1) ∧
    ((innerMerge prec succ s1 s2).cols.map Prod.fst).Nodup := by
  refine ⟨?_, ?_, ?_⟩
  · simp [innerMerge, mergeCols]
  · simp only [innerMerge, mergeCols, List.map_append, List.map_map]
    congr 1
  · have hlabels : (innerMerge prec succ s1 s2).cols.map Prod.fst =
        (prec.cols.map Prod.fst).map (renameKey (overlapTfs prec succ) s1) ++
          (prec.cols.map Prod.fst).map (renameKey (overlapTfs prec succ) s2) := by
      simp only [innerMerge, mergeCols, List.map_append, List.map_map]
      have e1 : List.map (Prod.fst ∘ mergeCol (overlapTfs prec succ) s1 prec.rows)
          prec.cols =
          List.map (renameKey (overlapTfs prec succ) s1 ∘ Prod.fst) prec.cols :=
        List.map_congr_left (fun c _ => rfl)
      have e2 : List.map (Prod.fst ∘ mergeCol (overlapTfs prec succ) s2 succ.rows)
          succ.cols =
          List.map (renameKey (overlapTfs prec succ) s2 ∘ Prod.fst) succ.cols :=
        List.map_congr_left (fun c _ => rfl)
      rw [e1, e2, ← List.map_map, ← List.map_map, ← hsame]
      simp [List.map_map]
    rw [hlabels]
    have hrk : ∀ k ∈ prec.cols.map Prod.fst, ∀ sfx,
        renameKey (overlapTfs prec succ) sfx k =
          ⟨k.tf ++ sfx, k.analysis, k.attr⟩ := by
      intro k hk sfx
      unfold renameKey
      rw [htf k hk, hattr k hk]
      simp
    have hinj : ∀ sfx, ∀ x ∈ prec.cols.map Prod.fst,
        ∀ y ∈ prec.cols.map Prod.fst,
        renameKey (overlapTfs prec succ) sfx x =
          renameKey (overlapTfs prec succ) sfx y → x = y := by
      intro sfx x hx y hy h
      rw [hrk x hx sfx, hrk y hy sfx] at h
      obtain ⟨h1, h2, h3⟩ := ColKey.mk.injEq .. ▸ h
      cases x with
      | mk xtf xan xat =>
        cases y with
        | mk ytf yan yat =>
          exact congrArg₂ (fun u v => ColKey.mk u v _) (strAppendRightCancel h1) h2 |>.trans
            (congrArg (ColKey.mk ytf yan) h3)
    refine List.Nodup.append (List.Nodup.map_on (hinj s1) hnd)
      (List.Nodup.map_on (hinj s2) hnd) ?_
    intro x hx1 hx2
    obtain ⟨k, hk, hkx⟩ := List.mem_map.mp hx1
    obtain ⟨k', hk', hkx'⟩ := List.mem_map.mp hx2
    have h := hkx.trans hkx'.symm
    rw [hrk k hk s1, hrk k' hk' s2] at h
    exact hcross k hk k' hk' (congrArg ColKey.tf h)

/-- One-column operand used to instantiate the C8 amendment. -/
def tG : Table :=
  { rows := ["T1"], cols := [(⟨"g", some 1, "EDGE"⟩, fun _ => some (.str "+"))] }

/-- C8 witness: the amended merge behaviour instantiated on identical
one-column operands with distinct suffixes. -/
theorem c8_witness :
    (innerMerge tG tG " a" " b").cols.length = tG.cols.length + tG.cols.length ∧
    (innerMerge tG tG " a" " b").cols.map Prod.fst =
      tG.cols.map (fun c => renameKey (overlapTfs tG tG) " a" c.1) ++
        tG.cols.map (fun c => renameKey (overlapTfs tG tG) " b" c.1) ∧
    ((innerMerge tG tG " a" " b").cols.map Prod.fst).Nodup :=
  c8_amended tG tG " a" " b" rfl (by decide) (by decide) (by decide) (by decide)

end ConnectF
